import Mathlib

/-!
Verification development for the ServerAnB media/state server (src/app.py).

The Python code is shallowly embedded: Python `dict`s become association
lists over `String` keys, the `InMemoryDB` class becomes a structure with
pure state-passing operations, and the filesystem touched by the atomic
snapshot writer becomes an explicit `FS` record.  Since every mutation of
an `InMemoryDB` happens inside `with self.lock:` blocks covering the whole
read-modify-write, each operation is modelled as one atomic step.
-/

namespace ServerAnB

/-- Lookup in an association-list model of a Python `dict` with string
keys: `kvLookup m k` is `m[k]` when present (first binding wins), `none`
otherwise. -/
def kvLookup {β : Type} : List (String × β) → String → Option β
  | [], _ => none
  | (a, b) :: rest, k => if k = a then some b else kvLookup rest k

/-- Remove every binding of key `k` (helper for `kvInsert`). -/
def kvErase {β : Type} : List (String × β) → String → List (String × β)
  | [], _ => []
  | (a, b) :: rest, k => if a = k then kvErase rest k else (a, b) :: kvErase rest k

/-- Python `d[k] = v`: the key is (re)bound to `v`, all other bindings are
unchanged. -/
def kvInsert {β : Type} (m : List (String × β)) (k : String) (v : β) : List (String × β) :=
  (k, v) :: kvErase m k

/-- Python `d.update(m)`: every binding of `m` is written into `d` in
order. -/
def kvUpdate {β : Type} (d m : List (String × β)) : List (String × β) :=
  m.foldl (fun acc p => kvInsert acc p.1 p.2) d

/-- The keys of an association list are pairwise distinct (true of any
association list obtained from an actual Python `dict`, such as the result
of `json.loads` on a JSON object). -/
def nodupKeys {β : Type} (m : List (String × β)) : Prop :=
  (m.map Prod.fst).Nodup

instance {β : Type} (m : List (String × β)) : Decidable (nodupKeys m) := by
  unfold nodupKeys; infer_instance

theorem kvLookup_erase {β : Type} (m : List (String × β)) (k k' : String) (h : k' ≠ k) :
    kvLookup (kvErase m k) k' = kvLookup m k' := by
  induction m with
  | nil => rfl
  | cons p rest ih =>
    obtain ⟨a, b⟩ := p
    by_cases hak : a = k
    · subst hak
      simp [kvErase, kvLookup, h, ih]
    · simp [kvErase, hak, kvLookup, ih]

theorem kvLookup_insert_self {β : Type} (m : List (String × β)) (k : String) (v : β) :
    kvLookup (kvInsert m k v) k = some v := by
  simp [kvInsert, kvLookup]

theorem kvLookup_insert_ne {β : Type} (m : List (String × β)) (k k' : String) (v : β)
    (h : k' ≠ k) : kvLookup (kvInsert m k v) k' = kvLookup m k' := by
  simp only [kvInsert, kvLookup, if_neg h, kvLookup_erase m k k' h]

theorem kvLookup_eq_none_of_not_mem {β : Type} (m : List (String × β)) (k : String)
    (h : k ∉ m.map Prod.fst) : kvLookup m k = none := by
  induction m with
  | nil => rfl
  | cons p rest ih =>
    obtain ⟨a, b⟩ := p
    simp only [List.map_cons, List.mem_cons] at h
    push_neg at h
    simp only [kvLookup, if_neg h.1, ih h.2]

theorem kvLookup_update {β : Type} (d m : List (String × β)) (k : String)
    (h : nodupKeys m) :
    kvLookup (kvUpdate d m) k =
      match kvLookup m k with
      | some v => some v
      | none => kvLookup d k := by
  induction m generalizing d with
  | nil => rfl
  | cons p rest ih =>
    obtain ⟨a, b⟩ := p
    have h' := h
    unfold nodupKeys at h'
    simp only [List.map_cons, List.nodup_cons] at h'
    have hrest : nodupKeys rest := h'.2
    have hupd : kvUpdate d ((a, b) :: rest) = kvUpdate (kvInsert d a b) rest := rfl
    rw [hupd, ih _ hrest]
    by_cases hk : k = a
    · subst hk
      have hn : kvLookup rest k = none := kvLookup_eq_none_of_not_mem rest k h'.1
      simp [hn, kvLookup, kvLookup_insert_self]
    · simp only [kvLookup, if_neg hk, kvLookup_insert_ne d a k b hk]
      rw [kvLookup_erase d a k hk]

/-! ## InMemoryDB (src/app.py lines 39-110)

`data` models the `defaultdict(int)` (counts are Python ints, hence `Int`);
`dirty` models the dirty flag.  The `filepath` and the reentrant lock are
not part of the state: operations are atomic steps, which is exactly what
the `with self.lock:` blocks guarantee. -/

structure InMemoryDB where
  data : List (String × Int)
  dirty : Bool
deriving DecidableEq

/-- What reading the snapshot file can yield: no file, an empty (after
`strip()`) file, a parsed JSON object, or a `json.loads`/`update` failure
(which also covers JSON that is not an object). -/
inductive FileRead where
  | absent
  | emptyContent
  | parsed (m : List (String × Int))
  | parseError
deriving DecidableEq

/-- InMemoryDB._load_from_disk (src/app.py lines 51-61): on a parsed JSON
object `self.data.update(json.loads(content))`; every other outcome
(missing file, blank content, raised exception caught by the bare
`except`) leaves `self.data` as it was.  The dirty flag is never touched. -/
def InMemoryDB.loadFromDisk (db : InMemoryDB) (f : FileRead) : InMemoryDB :=
  match f with
  | FileRead.parsed m => InMemoryDB.mk (kvUpdate db.data m) db.dirty
  | _ => db

/-- InMemoryDB.__init__ with a given first read of the snapshot file:
`data` starts as an empty `defaultdict(int)`, `dirty` as `False`, then
`_load_from_disk` runs once. -/
def InMemoryDB.init (f : FileRead) : InMemoryDB :=
  InMemoryDB.loadFromDisk (InMemoryDB.mk [] false) f

/-- A store constructed with no snapshot file present. -/
def emptyDB : InMemoryDB := InMemoryDB.init FileRead.absent

/-- InMemoryDB.get (src/app.py lines 63-66): `self.data.get(key, 0)` under
the lock.  `dict.get` never inserts (unlike `defaultdict` subscripting)
and the flag is not written, so the returned store is the argument
itself. -/
def InMemoryDB.get (db : InMemoryDB) (k : String) : Int × InMemoryDB :=
  ((kvLookup db.data k).getD 0, db)

/-- InMemoryDB.set (src/app.py lines 68-72): `self.data[key] = value;
self.dirty = True`. -/
def InMemoryDB.set (db : InMemoryDB) (k : String) (v : Int) : InMemoryDB :=
  InMemoryDB.mk (kvInsert db.data k v) true

/-- InMemoryDB.increment (src/app.py lines 74-79): under the lock,
`self.data[key] = self.data.get(key, 0) + 1; self.dirty = True;
return self.data[key]`. -/
def InMemoryDB.increment (db : InMemoryDB) (k : String) : Int × InMemoryDB :=
  let v := (kvLookup db.data k).getD 0 + 1
  (v, InMemoryDB.mk (kvInsert db.data k v) true)

/-- The current count of key `k` (the first component of `get`). -/
def InMemoryDB.count (db : InMemoryDB) (k : String) : Int :=
  (kvLookup db.data k).getD 0

/-- n sequential calls to `increment k`, keeping only the final store. -/
def incrementN (db : InMemoryDB) (k : String) : Nat → InMemoryDB
  | 0 => db
  | n + 1 => (InMemoryDB.increment (incrementN db k n) k).2

theorem count_increment_self (db : InMemoryDB) (k : String) :
    (db.increment k).2.count k = db.count k + 1 := by
  simp [InMemoryDB.increment, InMemoryDB.count, kvLookup_insert_self]

theorem count_increment_ne (db : InMemoryDB) (k j : String) (h : k ≠ j) :
    (db.increment j).2.count k = db.count k := by
  simp [InMemoryDB.increment, InMemoryDB.count, kvLookup_insert_ne _ _ _ _ h]

theorem increment_ret (db : InMemoryDB) (k : String) :
    (db.increment k).1 = db.count k + 1 := rfl

theorem count_incrementN (db : InMemoryDB) (k : String) (n : Nat) :
    (incrementN db k n).count k = db.count k + n := by
  induction n with
  | zero => simp [incrementN]
  | succ n ih =>
    simp only [incrementN, count_increment_self, ih]
    push_cast
    ring

/-- Claim C4: starting from an empty StateStore, `get k` returns 0 while
`k` is unseen, each `increment k` returns the previous count plus one, and
n sequential `increment k` calls leave `get k = n`. -/
theorem C4_counter_semantics (db : InMemoryDB) (k : String) (n : Nat) :
    (emptyDB.get k).1 = 0 ∧
    (db.increment k).1 = (db.get k).1 + 1 ∧
    ((incrementN emptyDB k n).get k).1 = n := by
  refine ⟨rfl, rfl, ?_⟩
  have h := count_incrementN emptyDB k n
  have hz : emptyDB.count k = 0 := rfl
  rw [hz, zero_add] at h
  exact h

/-! ## Snapshot writing (src/app.py lines 81-110)

`save_to_disk_async` writes to a fresh temporary file, fsyncs, on Windows
first removes an existing target, then renames the temporary file onto the
target.  `FS` records the (semantic) content of the target path and of the
temporary file; `SaveFail` names which step raises (a designated step that
is skipped — the Windows-only remove on POSIX or with no existing target —
cannot raise, so the write then completes).  The bare `except` unlinks the
temporary file; an unbound `temp_path` after a failed `mkstemp` raises
`NameError`, swallowed by the inner bare `except`. -/

structure FS where
  target : Option (List (String × Int))
  temp : Option (List (String × Int))
deriving DecidableEq

inductive SaveFail where
  | ok
  | atMkstemp
  | atWrite
  | atRemove
  | atRename
deriving DecidableEq

/-- InMemoryDB.save_to_disk_async (src/app.py lines 81-110): early return
when not dirty; otherwise snapshot the mapping and clear the flag under
the lock, then attempt mkstemp / json.dump+flush+fsync / (Windows, target
exists) remove / rename, unlinking the temporary file on any raise. -/
def InMemoryDB.saveToDisk (db : InMemoryDB) (fs : FS) (isWindows : Bool)
    (fail : SaveFail) : InMemoryDB × FS :=
  if db.dirty = false then (db, fs)
  else
    let db' := InMemoryDB.mk db.data false
    if fail = SaveFail.atMkstemp then (db', fs)
    else if fail = SaveFail.atWrite then (db', FS.mk fs.target none)
    else if isWindows && fs.target.isSome then
      if fail = SaveFail.atRemove then (db', FS.mk fs.target none)
      else if fail = SaveFail.atRename then (db', FS.mk none none)
      else (db', FS.mk (some db.data) none)
    else
      if fail = SaveFail.atRename then (db', FS.mk fs.target none)
      else (db', FS.mk (some db.data) none)

/-- Claim C6: when the snapshot write fails at a step strictly before the
final rename (mkstemp, the data write, or the Windows pre-rename remove —
the latter only arises on Windows with an existing target), the committed
file at the target path is unchanged, the temporary file is gone, and the
in-memory mapping is untouched. -/
theorem C6_failed_save_preserves_target (db : InMemoryDB) (fs : FS) (w : Bool)
    (fail : SaveFail) (htemp : fs.temp = none)
    (hf : fail = SaveFail.atMkstemp ∨ fail = SaveFail.atWrite ∨
          (fail = SaveFail.atRemove ∧ w = true ∧ fs.target.isSome = true)) :
    (db.saveToDisk fs w fail).2.target = fs.target ∧
    (db.saveToDisk fs w fail).2.temp = none ∧
    (db.saveToDisk fs w fail).1.data = db.data := by
  rcases hf with h | h | ⟨h, hw, ht⟩ <;> subst h <;>
    cases hd : db.dirty <;>
    simp [InMemoryDB.saveToDisk, hd, htemp, *]

theorem C6_witness : (FS.mk (some [("a", 3)]) none).temp = none ∧
    ((SaveFail.atWrite = SaveFail.atMkstemp ∨ SaveFail.atWrite = SaveFail.atWrite ∨
      (SaveFail.atWrite = SaveFail.atRemove ∧ true = true ∧
       (FS.mk (some [("a", (3:Int))]) none).target.isSome = true))) ∧
    (((InMemoryDB.mk [("k", 7)] true).saveToDisk (FS.mk (some [("a", 3)]) none) false
        SaveFail.atWrite).2.target = some [("a", 3)] ∧
     ((InMemoryDB.mk [("k", 7)] true).saveToDisk (FS.mk (some [("a", 3)]) none) false
        SaveFail.atWrite).2.temp = none ∧
     ((InMemoryDB.mk [("k", 7)] true).saveToDisk (FS.mk (some [("a", 3)]) none) false
        SaveFail.atWrite).1.data = [("k", 7)]) :=
  ⟨rfl, Or.inr (Or.inl rfl),
   C6_failed_save_preserves_target (InMemoryDB.mk [("k", 7)] true)
     (FS.mk (some [("a", 3)]) none) false SaveFail.atWrite rfl (Or.inr (Or.inl rfl))⟩

/-- Claim C7: `save_to_disk_async` on a non-dirty store changes nothing
(neither filesystem nor store); on a dirty store the surviving store keeps
the same mapping with the dirty flag cleared — whatever the outcome of the
write, i.e. the flag is cleared before the write happens — and a
successful write installs exactly the point-in-time copy of the mapping as
the new target content. -/
theorem C7_flush_semantics (db : InMemoryDB) (fs : FS) (w : Bool) (fail : SaveFail) :
    (db.dirty = false → db.saveToDisk fs w fail = (db, fs)) ∧
    (db.dirty = true → (db.saveToDisk fs w fail).1.data = db.data ∧
                       (db.saveToDisk fs w fail).1.dirty = false) ∧
    (db.dirty = true → (db.saveToDisk fs w SaveFail.ok).2.target = some db.data) := by
  refine ⟨fun h => ?_, fun h => ?_, fun h => ?_⟩ <;>
    simp only [InMemoryDB.saveToDisk, h] <;> split_ifs <;> simp_all

theorem C7_witness :
    ((InMemoryDB.mk [("k", 7)] false).saveToDisk (FS.mk none none) false SaveFail.ok
       = (InMemoryDB.mk [("k", 7)] false, FS.mk none none)) ∧
    (((InMemoryDB.mk [("k", 7)] true).saveToDisk (FS.mk none none) false
        SaveFail.atRename).1.data = [("k", 7)] ∧
     ((InMemoryDB.mk [("k", 7)] true).saveToDisk (FS.mk none none) false
        SaveFail.atRename).1.dirty = false) ∧
    ((InMemoryDB.mk [("k", 7)] true).saveToDisk (FS.mk none none) false
        SaveFail.ok).2.target = some [("k", 7)] :=
  ⟨(C7_flush_semantics (InMemoryDB.mk [("k", 7)] false) (FS.mk none none) false
      SaveFail.ok).1 rfl,
   (C7_flush_semantics (InMemoryDB.mk [("k", 7)] true) (FS.mk none none) false
      SaveFail.atRename).2.1 rfl,
   (C7_flush_semantics (InMemoryDB.mk [("k", 7)] true) (FS.mk none none) false
      SaveFail.ok).2.2 rfl⟩

/-- Claim C10: `InMemoryDB.get` returns the store unchanged: the mapping
is untouched (the queried key is not inserted, `dict.get` — unlike
`defaultdict` subscripting — never adds a default entry), the dirty flag
is not set, and hence a read on a clean store cannot cause a subsequent
snapshot write. -/
theorem C10_get_pure (db : InMemoryDB) (k : String) (fs : FS) (w : Bool)
    (fail : SaveFail) (h : db.dirty = false) :
    (db.get k).2 = db ∧
    (db.get k).2.dirty = db.dirty ∧
    kvLookup (db.get k).2.data k = kvLookup db.data k ∧
    ((db.get k).2).saveToDisk fs w fail = ((db.get k).2, fs) := by
  refine ⟨rfl, rfl, rfl, ?_⟩
  simp [InMemoryDB.get, InMemoryDB.saveToDisk, h]

theorem C10_witness : (InMemoryDB.mk [("a", 2)] false).dirty = false ∧
    (((InMemoryDB.mk [("a", 2)] false).get "b").2 = InMemoryDB.mk [("a", 2)] false ∧
     ((InMemoryDB.mk [("a", 2)] false).get "b").2.dirty =
       (InMemoryDB.mk [("a", 2)] false).dirty ∧
     kvLookup ((InMemoryDB.mk [("a", 2)] false).get "b").2.data "b" =
       kvLookup [("a", 2)] "b" ∧
     (((InMemoryDB.mk [("a", 2)] false).get "b").2).saveToDisk (FS.mk none none)
         false SaveFail.ok
       = (((InMemoryDB.mk [("a", 2)] false).get "b").2, FS.mk none none)) :=
  ⟨rfl, C10_get_pure (InMemoryDB.mk [("a", 2)] false) "b" (FS.mk none none)
     false SaveFail.ok rfl⟩

/-- Claim C1 fails on the code: `_load_from_disk` merges via
`dict.update`, so a key in memory but not in the file survives a reload
(reachable through `sync_at_start`, which reloads a store whose mapping
may already be populated), and a parse failure leaves the existing —
possibly non-empty — mapping in place rather than an empty one. -/
theorem C1_counterexample :
    kvLookup [("b", (2 : Int))] "a" = none ∧
    ((InMemoryDB.mk [("a", 5)] false).loadFromDisk
        (FileRead.parsed [("b", 2)])).count "a" = 5 ∧
    ((InMemoryDB.mk [("a", 5)] false).loadFromDisk FileRead.parseError).data
      = [("a", 5)] := by
  refine ⟨rfl, ?_, rfl⟩
  decide

/-- Claim C1 as amended: loading the snapshot merges the parsed file
mapping into memory — a key bound in the file takes the file's value, any
other key keeps its in-memory value — the dirty flag is untouched, and
every failure outcome (missing file, blank content, parse error) leaves
the store exactly as it was, with no exception reaching the caller. -/
theorem C1_load_merges (db : InMemoryDB) (m : List (String × Int)) (k : String)
    (h : nodupKeys m) :
    ((db.loadFromDisk (FileRead.parsed m)).count k =
       match kvLookup m k with
       | some v => v
       | none => db.count k) ∧
    (db.loadFromDisk (FileRead.parsed m)).dirty = db.dirty ∧
    db.loadFromDisk FileRead.absent = db ∧
    db.loadFromDisk FileRead.emptyContent = db ∧
    db.loadFromDisk FileRead.parseError = db := by
  refine ⟨?_, rfl, rfl, rfl, rfl⟩
  show (kvLookup (kvUpdate db.data m) k).getD 0 = _
  rw [kvLookup_update db.data m k h]
  cases kvLookup m k <;> rfl

theorem C1_load_merges_witness : nodupKeys [("b", (2 : Int))] ∧
    ((InMemoryDB.mk [("a", 5)] false).loadFromDisk
        (FileRead.parsed [("b", 2)])).count "b" = 2 := by
  refine ⟨by decide, ?_⟩
  have h := (C1_load_merges (InMemoryDB.mk [("a", 5)] false) [("b", 2)] "b"
    (by decide)).1
  rw [h]
  rfl

/-! ## Concurrency (src/app.py lines 74-79, 374-391)

Every `increment` executes its whole read-then-write inside
`with self.lock:`, so an execution with several request workers is some
serialization (interleaving) of atomic `increment` steps.  A trace is
modelled as the list of keys incremented, in serialization order; any
interleaving of the per-thread operation lists is a permutation of their
concatenation. -/

/-- A serialized execution: each element of `ops` is one atomic
`increment` of that key. -/
def runIncrements (db : InMemoryDB) (ops : List String) : InMemoryDB :=
  ops.foldl (fun d j => (d.increment j).2) db

theorem count_runIncrements (db : InMemoryDB) (ops : List String) (k : String) :
    (runIncrements db ops).count k = db.count k + ops.count k := by
  induction ops generalizing db with
  | nil => simp [runIncrements, InMemoryDB.count]
  | cons j rest ih =>
    have hrun : runIncrements db (j :: rest) = runIncrements (db.increment j).2 rest := rfl
    rw [hrun, ih]
    by_cases hjk : j = k
    · subst hjk
      rw [count_increment_self, List.count_cons_self]
      push_cast
      ring
    · rw [count_increment_ne db k j (Ne.symm hjk), List.count_cons_of_ne (Ne.symm hjk)]

theorem count_join_replicate (T I : Nat) (k : String) :
    (List.flatten (List.replicate T (List.replicate I k))).count k = T * I := by
  induction T with
  | zero => simp
  | succ T ih =>
    rw [List.replicate_succ, List.flatten_cons, List.count_append, ih,
      List.count_replicate_self]
    ring

/-- Claim C5: any serialization of T concurrent callers each performing I
atomic `increment k` steps — i.e. any permutation of the concatenation of
the T per-thread traces — leaves `get k` equal to exactly T * I: no update
is lost, because each read-then-increment is one step under the store's
lock. -/
theorem C5_no_lost_updates (T I : Nat) (k : String) (ops : List String)
    (h : ops.Perm (List.flatten (List.replicate T (List.replicate I k)))) :
    ((runIncrements emptyDB ops).get k).1 = (T : Int) * I := by
  have hc : ops.count k = T * I := by
    rw [h.count_eq]
    exact count_join_replicate T I k
  have hr := count_runIncrements emptyDB ops k
  show (runIncrements emptyDB ops).count k = (T : Int) * I
  have h0 : emptyDB.count k = 0 := rfl
  rw [hr, h0, hc]
  push_cast
  ring

theorem C5_witness :
    (["a", "a", "a", "a"] : List String).Perm
      (List.flatten (List.replicate 2 (List.replicate 2 "a"))) ∧
    ((runIncrements emptyDB ["a", "a", "a", "a"]).get "a").1 = (2 : Int) * 2 :=
  ⟨by decide, C5_no_lost_updates 2 2 "a" ["a", "a", "a", "a"] (by decide)⟩

/-! ## External interface (src/app.py lines 374-391)

The `/state/...` and `/wk/state/...` handlers call only `InMemoryDB.get`
and `InMemoryDB.increment`; no route calls `set`. -/

inductive ExtOp where
  | getState (k : String)
  | nextState (k : String)

/-- One externally reachable store operation: `get_state`/`get_wk_state`
performs `db.get`, `next_state`/`next_wk_state` performs `db.increment`. -/
def applyExt (db : InMemoryDB) (op : ExtOp) : InMemoryDB :=
  match op with
  | ExtOp.getState j => (db.get j).2
  | ExtOp.nextState j => (db.increment j).2

def runExt (db : InMemoryDB) (ops : List ExtOp) : InMemoryDB :=
  ops.foldl applyExt db

theorem applyExt_mono (db : InMemoryDB) (op : ExtOp) (k : String) :
    db.count k ≤ (applyExt db op).count k := by
  cases op with
  | getState j => exact le_refl _
  | nextState j =>
    by_cases hjk : j = k
    · subst hjk
      rw [applyExt, count_increment_self]
      omega
    · rw [applyExt, count_increment_ne db k j (Ne.symm hjk)]

/-- Claim C8: along any sequence of externally reachable operations (the
`/state` and `/wk/state` endpoints expose only `get` and `increment`,
never `set`), every key's counter is monotonically non-decreasing. -/
theorem C8_monotonic_counters (db : InMemoryDB) (op : ExtOp) (ops : List ExtOp)
    (k : String) :
    db.count k ≤ (applyExt db op).count k ∧
    db.count k ≤ (runExt db ops).count k := by
  refine ⟨applyExt_mono db op k, ?_⟩
  induction ops generalizing db with
  | nil => exact le_refl _
  | cons o rest ih => exact le_trans (applyExt_mono db o k) (ih _)

/-! ## Audio resolution (src/app.py lines 286-371)

The read-only `media` table is an association list from filename to blob
content (blobs as `String`); `Path(filename).stem` is the filename with
its final extension removed (no suffix when there is no dot, or when the
only dot starts the name). -/

/-- Python `Path(s).stem` for a plain filename: everything before the last
dot, except that a name with no dot, or whose only dot is its first
character, is its own stem. -/
def stem (s : String) : String :=
  let rcs := s.toList.reverse
  match rcs.dropWhile (fun c => c ≠ '.') with
  | [] => s
  | _ :: [] => s
  | _ :: pre => String.mk pre.reverse

/-- Extension order of the database tier (src/app.py line 296). -/
def dbExts : List String := [".opus", ".ogg", ".mp3", ".wav"]

/-- Extension order of the filesystem tier (src/app.py line 358). -/
def fsExts : List String := [".ogg", ".mp3", ".wav", ".opus"]

/-- get_audio_blob_from_db (src/app.py lines 286-303): exact filename
lookup in the `media` table, then on miss the stem retried with each
extension of `dbExts` in order, first row found returned.  `conn` is
whether `db_conn` is non-None.  (`lru_cache` memoizes a pure function and
is transparent to the result.) -/
def get_audio_blob_from_db (conn : Bool) (media : List (String × String))
    (filename : String) : Option String :=
  if !conn then none
  else
    match kvLookup media filename with
    | some d => some d
    | none => dbExts.findSome? (fun ext => kvLookup media (stem filename ++ ext))

/-- Filesystem tier of serve_audio (src/app.py lines 351-364): the two
directories are the sets of filenames they contain; the result marks
which directory (`true` = DIR_GEN, `false` = DIR_BULK) and which filename
matched.  Exact name in DIR_GEN, then DIR_BULK; on miss, for each
extension of `fsExts` in order, stem+ext in DIR_GEN then DIR_BULK. -/
def resolveFsPath (dirGen dirBulk : List String) (filename : String) :
    Option (Bool × String) :=
  if dirGen.contains filename then some (true, filename)
  else if dirBulk.contains filename then some (false, filename)
  else
    fsExts.findSome? (fun ext =>
      if dirGen.contains (stem filename ++ ext) then some (true, stem filename ++ ext)
      else if dirBulk.contains (stem filename ++ ext) then
        some (false, stem filename ++ ext)
      else none)

/-- The filesystem resolver the claim describes, written from the spec's
words: identical except that the stem retries use the database tier's
extension order `dbExts`. -/
def resolveFsPathClaimed (dirGen dirBulk : List String) (filename : String) :
    Option (Bool × String) :=
  if dirGen.contains filename then some (true, filename)
  else if dirBulk.contains filename then some (false, filename)
  else
    dbExts.findSome? (fun ext =>
      if dirGen.contains (stem filename ++ ext) then some (true, stem filename ++ ext)
      else if dirBulk.contains (stem filename ++ ext) then
        some (false, stem filename ++ ext)
      else none)

/-- The amended behaviour as a flat search list: for each extension in
`fsExts` order, the primary directory candidate then the secondary
directory candidate, taking the first candidate present in its
directory. -/
def fsCandidates (st : String) : List (Bool × String) :=
  (fsExts.map (fun e => st ++ e)).foldr
    (fun n acc => (true, n) :: (false, n) :: acc) []

def resolveFsPathAmended (dirGen dirBulk : List String) (filename : String) :
    Option (Bool × String) :=
  if dirGen.contains filename then some (true, filename)
  else if dirBulk.contains filename then some (false, filename)
  else
    (fsCandidates (stem filename)).find?
      (fun c => if c.1 then dirGen.contains c.2 else dirBulk.contains c.2)

theorem findSome?_pairs (g b : List String) (names : List String) :
    (names.findSome? (fun n =>
        if g.contains n then some (true, n)
        else if b.contains n then some (false, n)
        else none))
      = (names.foldr (fun n acc => (true, n) :: (false, n) :: acc) []).find?
          (fun c => if c.1 then g.contains c.2 else b.contains c.2) := by
  induction names with
  | nil => rfl
  | cons n rest ih =>
    by_cases hg : n ∈ g
    · simp [List.findSome?_cons, List.find?, hg]
    · by_cases hb : n ∈ b
      · simp [List.findSome?_cons, List.find?, hg, hb]
      · simp [List.findSome?_cons, List.find?, hg, hb]
        simpa using ih

theorem findSome?_map_comp {α β γ : Type} (g : α → β) (f : β → Option γ)
    (l : List α) :
    (l.map g).findSome? f = l.findSome? (fun a => f (g a)) := by
  induction l with
  | nil => rfl
  | cons a rest ih => simp [List.findSome?_cons, ih]

/-- Claim C2 fails on the code: the filesystem tier does not use the
database tier's extension order.  A directory holding both `foo.opus` and
`foo.ogg` resolves `foo.mp3` to `foo.ogg`, while the claimed order would
resolve it to `foo.opus`. -/
theorem C2_counterexample :
    resolveFsPath ["foo.opus", "foo.ogg"] [] "foo.mp3" = some (true, "foo.ogg") ∧
    resolveFsPathClaimed ["foo.opus", "foo.ogg"] [] "foo.mp3"
      = some (true, "foo.opus") ∧
    resolveFsPath ["foo.opus", "foo.ogg"] [] "foo.mp3"
      ≠ resolveFsPathClaimed ["foo.opus", "foo.ogg"] [] "foo.mp3" := by
  refine ⟨?_, ?_, ?_⟩ <;> decide

/-- Claim C2 as amended: on an exact-filename miss in both directories the
filesystem tier retries stem+extension in the fixed order `.ogg`, `.mp3`,
`.wav`, `.opus` — an order differing from the database tier's `.opus`,
`.ogg`, `.mp3`, `.wav` — checking the primary directory then the secondary
directory for each extension before advancing to the next extension. -/
theorem C2_fs_tier_order :
    (∀ dirGen dirBulk filename,
       resolveFsPath dirGen dirBulk filename
         = resolveFsPathAmended dirGen dirBulk filename) ∧
    fsExts = [".ogg", ".mp3", ".wav", ".opus"] ∧
    dbExts = [".opus", ".ogg", ".mp3", ".wav"] ∧
    fsExts ≠ dbExts := by
  refine ⟨?_, rfl, rfl, by decide⟩
  intro g b fn
  have h := findSome?_pairs g b (fsExts.map (fun e => stem fn ++ e))
  rw [findSome?_map_comp] at h
  simp only [resolveFsPath, resolveFsPathAmended, fsCandidates, h]

/-- Claim C3: when the media table binds `foo.opus` but not `foo.mp3`,
resolving `foo.mp3` through the database tier returns the bytes stored
under `foo.opus`: the exact lookup misses and the stem retry finds
`.opus` first. -/
theorem C3_resolution_precedence (media : List (String × String)) (d : String)
    (h1 : kvLookup media "foo.opus" = some d)
    (h2 : kvLookup media "foo.mp3" = none) :
    get_audio_blob_from_db true media "foo.mp3" = some d := by
  have hstem : stem "foo.mp3" ++ ".opus" = "foo.opus" := by decide
  simp only [get_audio_blob_from_db, Bool.not_true, dbExts, List.findSome?_cons, h2,
    hstem, h1]
  rfl

theorem C3_witness :
    kvLookup [("foo.opus", "X")] "foo.opus" = some "X" ∧
    kvLookup [("foo.opus", "X")] "foo.mp3" = none ∧
    get_audio_blob_from_db true [("foo.opus", "X")] "foo.mp3" = some "X" :=
  ⟨by decide, by decide,
   C3_resolution_precedence [("foo.opus", "X")] "X" (by decide) (by decide)⟩

/-! ## Bookmarks (src/app.py lines 437-466)

The bookmark document is an association list from episode name to its
list of bookmark records (records kept opaque as `String`s); the request
body is an association list from JSON field name to such a list. -/

/-- save_bookmarks (src/app.py lines 437-466), happy path: the bookmark
list is `data.get("bookmarks", [])`, the whole document gets the episode
entry overwritten, the new document is written atomically and
`{"status": "ok"}` returned.  The result is the written document and the
returned status. -/
def save_bookmarks (episode : String) (body : List (String × List String))
    (doc : List (String × List String)) : List (String × List String) × String :=
  let bookmarks := (kvLookup body "bookmarks").getD []
  (kvInsert doc episode bookmarks, "ok")

/-- Claim C9: a POST body without the "bookmarks" key is not rejected —
the list defaults to `[]`, the episode's entry in the written document
becomes the empty list (erasing whatever was stored), and the status is
"ok". -/
theorem C9_missing_bookmarks_key (episode : String)
    (body doc : List (String × List String))
    (h : kvLookup body "bookmarks" = none) :
    (save_bookmarks episode body doc).2 = "ok" ∧
    kvLookup (save_bookmarks episode body doc).1 episode = some [] := by
  constructor
  · rfl
  · simp only [save_bookmarks, h]
    exact kvLookup_insert_self doc episode ([] : List String)

theorem C9_witness :
    kvLookup ([] : List (String × List String)) "bookmarks" = none ∧
    ((save_bookmarks "ep1" [] [("ep1", ["b1"])]).2 = "ok" ∧
     kvLookup (save_bookmarks "ep1" [] [("ep1", ["b1"])]).1 "ep1" = some []) :=
  ⟨rfl, C9_missing_bookmarks_key "ep1" [] [("ep1", ["b1"])] rfl⟩

end ServerAnB
